import Mathlib

/-!
Verification of the equityanalizer repository's core: the Record Loader
(`load_csv_data` / `load_data`), the Daily Metrics Calculator
(`calculate_max_floating_negative_balance`), and the Batch Aggregator
(`process_all_csv_files`, `extract_date_from_filename`).

Shallow embedding conventions:
* a loaded pandas DataFrame row is a `RawRow` of `Cell`s: a cell of a float
  column is an exact rational `ℚ`, a cell of an object column keeps its raw
  string, and `NaN` (an empty field or short-row padding) is a constructor;
  the frame the spec's typed Sample sequence describes is a `List Row`
  (the `Floating_Loss` column added by the Calculator is an `Option ℚ` field);
* decimal (Python float) values are modelled as exact rationals `ℚ`,
  a possibly-NaN float as `Option ℚ`;
* timestamps are wall-clock `DateTime` records; timezone conversion is done
  with calendar arithmetic on seconds, mirroring
  `tz_localize('UTC').tz_convert('US/Eastern')` from pytz;
* a raised-and-caught Python exception becomes an `Except.error` / `Option.none`
  return value; an exception that propagates out of `process_all_csv_files`
  becomes `Except.error ()` of that function;
* the `print` diagnostics of the batch loop are collected in a `List String`.
-/

/-- A parsed wall-clock timestamp (the result of
`pd.to_datetime(..., format='%Y.%m.%d %H:%M:%S')`). -/
structure DateTime where
  year : Nat
  month : Nat
  day : Nat
  hour : Nat
  minute : Nat
  second : Nat
deriving DecidableEq, Repr

/-- A calendar date as produced by `datetime.strptime(s, '%Y-%m-%d').date()`. -/
structure Date where
  year : Nat
  month : Nat
  day : Nat
deriving DecidableEq, Repr

/-- Gregorian leap-year rule. -/
def isLeapYear (y : Nat) : Bool :=
  y % 4 == 0 && (y % 100 != 0 || y % 400 == 0)

/-- Number of days in month `m` of year `y`. -/
def daysInMonth (y m : Nat) : Nat :=
  if m = 2 then (if isLeapYear y then 29 else 28)
  else if m = 4 ∨ m = 6 ∨ m = 9 ∨ m = 11 then 30
  else 31

/-- Day count of a Gregorian civil date, measured from 0000-03-01
(the standard days-from-civil algorithm, shifted so the result stays in `Nat`
for every year `≥ 1`). -/
def dayNumber (y m d : Nat) : Nat :=
  let y2 := if m ≤ 2 then y - 1 else y
  let m2 := if m ≤ 2 then m + 9 else m - 3
  y2 * 365 + y2 / 4 - y2 / 100 + y2 / 400 + (153 * m2 + 2) / 5 + (d - 1)

/-- Seconds elapsed from 0000-03-01 00:00:00 to the given wall-clock time. -/
def toSecs (dt : DateTime) : Nat :=
  dayNumber dt.year dt.month dt.day * 86400
    + dt.hour * 3600 + dt.minute * 60 + dt.second

/-- Inverse of `dayNumber`: the civil `(year, month, day)` of a day count
(the standard civil-from-days algorithm). -/
def civilFromDayNumber (z : Nat) : Nat × Nat × Nat :=
  let era := z / 146097
  let doe := z % 146097
  let yoe := (doe - doe / 1460 + doe / 36524 - doe / 146096) / 365
  let y := yoe + era * 400
  let doy := doe - (365 * yoe + yoe / 4 - yoe / 100)
  let mp := (5 * doy + 2) / 153
  let d := doy - (153 * mp + 2) / 5 + 1
  let m := if mp < 10 then mp + 3 else mp - 9
  (if m ≤ 2 then y + 1 else y, m, d)

/-- Wall-clock time of a second count (inverse of `toSecs`). -/
def fromSecs (n : Nat) : DateTime :=
  let c := civilFromDayNumber (n / 86400)
  let rem := n % 86400
  ⟨c.1, c.2.1, c.2.2, rem / 3600, rem % 3600 / 60, rem % 60⟩

/-- Weekday of a day count, with Sunday = 0 (0000-03-01 was a Wednesday). -/
def weekday (z : Nat) : Nat :=
  (z + 3) % 7

/-- Day of month of the first Sunday of month `m` in year `y`. -/
def firstSundayOf (y m : Nat) : Nat :=
  1 + (7 - weekday (dayNumber y m 1)) % 7

/-- Day of month of the second Sunday of March (US DST start). -/
def secondSundayOfMarch (y : Nat) : Nat :=
  firstSundayOf y 3 + 7

/-- Day of month of the first Sunday of November (US DST end). -/
def firstSundayOfNovember (y : Nat) : Nat :=
  firstSundayOf y 11

/-- Whether a UTC instant (given by its UTC wall clock) falls in US Eastern
daylight-saving time: from the second Sunday of March 07:00 UTC
(02:00 EST) to the first Sunday of November 06:00 UTC (02:00 EDT).
This embeds the `US/Eastern` rules that `pytz` applies in
`tz_convert(eastern)`. -/
def isDSTEastern (dt : DateTime) : Bool :=
  if dt.month < 3 ∨ 11 < dt.month then false
  else if 3 < dt.month ∧ dt.month < 11 then true
  else if dt.month = 3 then
    decide (secondSundayOfMarch dt.year < dt.day ∨
      (dt.day = secondSundayOfMarch dt.year ∧ 7 ≤ dt.hour))
  else
    decide (dt.day < firstSundayOfNovember dt.year ∨
      (dt.day = firstSundayOfNovember dt.year ∧ dt.hour < 6))

/-- `tz_localize('UTC').tz_convert('US/Eastern')` on one timestamp: the naive
wall clock is read as a UTC instant and re-expressed as the US Eastern wall
clock, i.e. shifted back by 4 hours during daylight-saving time and by
5 hours otherwise. -/
def utcToEastern (dt : DateTime) : DateTime :=
  fromSecs (toSecs dt - (if isDSTEastern dt then 4 else 5) * 3600)

/-- One typed sample row of the four-column frame
`['Timestamp', 'Equity', 'Balance', 'Drawdown']` — the spec's Sample, i.e. a
loaded row whose value cells are all present floats. The `floatingLoss` field
is the `Floating_Loss` column that `calculate_max_floating_negative_balance`
adds to the frame (absent, i.e. `none`, before the Calculator runs). -/
structure Row where
  timestamp : DateTime
  equity : ℚ
  balance : ℚ
  drawdown : ℚ
  floatingLoss : Option ℚ := none
deriving DecidableEq, Repr

/-- Numeric value of a decimal digit character. -/
def digitVal (c : Char) : Nat :=
  c.toNat - 48

/-- Split a character list at every occurrence of `sep`
(the `sep=';'` field splitting of `pd.read_csv`). -/
def splitOnChar (sep : Char) : List Char → List (List Char)
  | [] => [[]]
  | c :: cs =>
    if c = sep then [] :: splitOnChar sep cs
    else match splitOnChar sep cs with
      | [] => [[c]]
      | g :: gs => (c :: g) :: gs

/-- Read a nonempty all-digit character list as a natural number. -/
def parseDigitsAux (acc : Nat) : List Char → Option Nat
  | [] => some acc
  | c :: cs => if c.isDigit then parseDigitsAux (acc * 10 + digitVal c) cs else none

/-- Read a nonempty all-digit character list as a natural number;
`none` on the empty list or any non-digit. -/
def parseDigits : List Char → Option Nat
  | [] => none
  | c :: cs => parseDigitsAux 0 (c :: cs)

/-- One cell of a numeric or object column produced by `pd.read_csv`:
a float value (in a column whose present entries all convert to numbers),
the raw string (in an object column, where even numeric-looking entries stay
strings), or `NaN` (an empty field, or the padding of a row with fewer fields
than the frame). -/
inductive Cell where
  | num (q : ℚ)
  | str (s : List Char)
  | nan
deriving DecidableEq, Repr

/-- One row of the frame as the Loader actually produces it: the `Timestamp`
column after `pd.to_datetime` (`none` is `NaT`, from an empty first field) and
the three value columns as `Cell`s. -/
structure RawRow where
  timestamp : Option DateTime
  equity : Cell
  balance : Cell
  drawdown : Cell
deriving DecidableEq, Repr

/-- Split a character list at the first `e`/`E`, the exponent marker of a
float literal: `(mantissa, some exponent)` or `(cs, none)`. -/
def splitExp : List Char → List Char × Option (List Char)
  | [] => ([], none)
  | c :: cs =>
    if c = 'e' ∨ c = 'E' then ([], some cs)
    else
      match splitExp cs with
      | (m, e) => (c :: m, e)

/-- Value of a float mantissa: `digits`, `digits.`, `digits.digits` or
`.digits` (as accepted by Python's float conversion). -/
def mantissaVal (cs : List Char) : Option ℚ :=
  match splitOnChar '.' cs with
  | [ip] => (parseDigits ip).map fun n => (n : ℚ)
  | [ip, fp] =>
    if ip.isEmpty ∧ fp.isEmpty then none
    else
      match (if ip.isEmpty then some 0 else parseDigits ip),
          (if fp.isEmpty then some 0 else parseDigits fp) with
      | some n, some f => some ((n : ℚ) + (f : ℚ) / (10 : ℚ) ^ fp.length)
      | _, _ => none
  | _ => none

/-- Value of a float exponent: optionally signed digits. -/
def expVal (cs : List Char) : Option Int :=
  match cs with
  | '-' :: rest => (parseDigits rest).map fun n => -(n : Int)
  | '+' :: rest => (parseDigits rest).map fun n => (n : Int)
  | _ => (parseDigits cs).map fun n => (n : Int)

/-- Unsigned float literal: mantissa with optional exponent. -/
def floatUnsigned (cs : List Char) : Option ℚ :=
  match splitExp cs with
  | (m, none) => mantissaVal m
  | (m, some ecs) =>
    match mantissaVal m, expVal ecs with
    | some q, some k => some (q * (10 : ℚ) ^ k)
    | _, _ => none

/-- The numeric conversion `pd.read_csv` tries on each value column: an
optionally signed float literal (`1000`, `-2.5`, `.5`, `5.`, `1e5`, …) as an
exact rational; `none` when the field is not numeric. -/
def floatOfChars (cs : List Char) : Option ℚ :=
  match cs with
  | '-' :: rest => (floatUnsigned rest).map fun q => -q
  | '+' :: rest => floatUnsigned rest
  | _ => floatUnsigned cs

/-- Greedily take up to `maxN` leading digits (strptime's `\d{1,k}` matching
of a numeric directive): accumulated value, number taken, rest. -/
def grabDigitsAux (acc taken maxN : Nat) : List Char → Nat × Nat × List Char
  | [] => (acc, taken, [])
  | c :: cs =>
    if c.isDigit ∧ taken < maxN then
      grabDigitsAux (acc * 10 + digitVal c) (taken + 1) maxN cs
    else (acc, taken, c :: cs)

/-- At least one and at most `maxN` leading digits, with the remaining
characters. -/
def grabDigits (maxN : Nat) (cs : List Char) : Option (Nat × List Char) :=
  match grabDigitsAux 0 0 maxN cs with
  | (v, taken, rest) => if taken = 0 then none else some (v, rest)

/-- Consume one expected literal character. -/
def expectChar (c : Char) : List Char → Option (List Char)
  | x :: rest => if x = c then some rest else none
  | [] => none

/-- `datetime.strptime` with format `%Y.%m.%d %H:%M:%S`, as `pd.to_datetime`
applies it per cell: each numeric directive matches 1–2 digits (1–4 for the
year), so a single-digit month or hour is accepted; the whole cell must be
consumed; the ranges are validated (month 1–12, day valid for the month,
hour ≤ 23, minute and second ≤ 59, year ≥ 1). `none` exactly when the call
would raise. -/
def parseTimestampFlex (cs : List Char) : Option DateTime := do
  let (y, r1) ← grabDigits 4 cs
  let r2 ← expectChar '.' r1
  let (mo, r3) ← grabDigits 2 r2
  let r4 ← expectChar '.' r3
  let (d, r5) ← grabDigits 2 r4
  let r6 ← expectChar ' ' r5
  let (h, r7) ← grabDigits 2 r6
  let r8 ← expectChar ':' r7
  let (mi, r9) ← grabDigits 2 r8
  let r10 ← expectChar ':' r9
  let (s, r11) ← grabDigits 2 r10
  if r11 = [] ∧ 1 ≤ y ∧ 1 ≤ mo ∧ mo ≤ 12 ∧ 1 ≤ d ∧ d ≤ daysInMonth y mo ∧
      h ≤ 23 ∧ mi ≤ 59 ∧ s ≤ 59 then
    some ⟨y, mo, d, h, mi, s⟩
  else none

/-- Field `c` of a tokenized row; a field beyond the row's end (the NaN
padding of a short row) is the empty field, which — like an explicitly empty
field — reads as missing. -/
def getField (t : List (List Char)) (c : Nat) : List Char :=
  t.getD c []

/-- Whether `pd.read_csv` converts column `c` to a float column: every
present (nonempty) field of the column parses as a float. Otherwise the
column keeps its raw strings (object dtype). -/
def colIsNumeric (toks : List (List (List Char))) (c : Nat) : Bool :=
  toks.all fun t => (getField t c).isEmpty || (floatOfChars (getField t c)).isSome

/-- The cell of one field: missing fields are `NaN`; in a numeric column the
parsed float, otherwise the raw string. -/
def mkCell (numeric : Bool) (field : List Char) : Cell :=
  if field.isEmpty then .nan
  else
    match floatOfChars field with
    | some q => if numeric then .num q else .str field
    | none => .str field

/-- `pd.to_datetime(..., format=...)` on one cell of the `Timestamp` column:
a missing field becomes `NaT`; a present field must match the format or the
whole conversion raises. -/
def rowTimestamp (t : List (List Char)) : Except Unit (Option DateTime) :=
  if (getField t 0).isEmpty then .ok none
  else
    match parseTimestampFlex (getField t 0) with
    | some dt => .ok (some dt)
    | none => .error ()

/-- Assemble the rows of the frame from the tokenized lines, given the
numeric-or-object decision of each value column; the first unparseable
present timestamp raises and fails the whole frame. -/
def buildRows (eN bN dN : Bool) : List (List (List Char)) → Except Unit (List RawRow)
  | [] => .ok []
  | t :: ts =>
    match rowTimestamp t with
    | .error _ => .error ()
    | .ok ts0 =>
      match buildRows eN bN dN ts with
      | .error _ => .error ()
      | .ok rest =>
        .ok (⟨ts0, mkCell eN (getField t 1), mkCell bN (getField t 2),
          mkCell dN (getField t 3)⟩ :: rest)

/-- The shared load pipeline of both loaders:
`pd.read_csv(path, sep=';', header=None)`, the four-name column assignment,
and `pd.to_datetime(df['Timestamp'], format='%Y.%m.%d %H:%M:%S')`.
Blank lines are skipped (`skip_blank_lines`); a file with no remaining rows
raises `EmptyDataError`; a row with more fields than the first row raises
`ParserError`; a frame whose width is not 4 makes the column assignment raise
`ValueError`; an unparseable present timestamp makes `to_datetime` raise.
A row with fewer fields is NaN-padded and kept; a value column with any
non-numeric present field is kept as strings. `Except.error ()` stands for
any of these raised exceptions. -/
def pdParseFrame (lines : List String) : Except Unit (List RawRow) :=
  match (lines.map String.toList).filter (fun cs => !cs.isEmpty) with
  | [] => .error ()
  | r0 :: rs =>
    let toks := (r0 :: rs).map (splitOnChar ';')
    let w := (splitOnChar ';' r0).length
    if toks.any fun t => w < t.length then .error ()
    else if w ≠ 4 then .error ()
    else buildRows (colIsNumeric toks 1) (colIsNumeric toks 2) (colIsNumeric toks 3) toks

/-- The diagnostic `print(f"Error loading {file_path}: {str(e)}")` issued by
`load_csv_data` when any step of the load raises. -/
def loadErrMsg (filePath : String) : String :=
  "Error loading " ++ filePath ++ ": exception"

/-- `load_csv_data` from `src/Analizer/dailyEquityAnalyzer.py`: the shared
load pipeline followed by
`tz_localize('UTC').tz_convert('US/Eastern')` on the timestamp column
(`NaT` stays `NaT`). Its `try/except` catches every exception — including
`EmptyDataError` on a zero-row file — and turns it into the "Error loading"
diagnostic (modelled as the `Except.error` value), returning `None`:
no partial data is ever returned. -/
def load_csv_data (filePath : String) (lines : List String) : Except String (List RawRow) :=
  match pdParseFrame lines with
  | .error _ => .error (loadErrMsg filePath)
  | .ok raws => .ok (raws.map fun r => { r with timestamp := r.timestamp.map utcToEastern })

/-- `load_data` from `src/python/equityAnalizer.py`: the same pipeline but no
timezone conversion — the parsed wall clock is kept unchanged (the spec's
already-local mode) — and no `try/except`, so every exception (including
`EmptyDataError` on a zero-row file) propagates to the caller. -/
def load_data (lines : List String) : Except Unit (List RawRow) :=
  pdParseFrame lines

/-- The `Floating_Loss` value of one row: `Balance - Equity`. -/
def floatingLossOf (s : Row) : ℚ :=
  s.balance - s.equity

/-- `Series.max` of a nonempty column given as head and tail. -/
def seriesMax (x : ℚ) : List ℚ → ℚ
  | [] => x
  | y :: ys => max x (seriesMax y ys)

/-- `Series.min` of a nonempty column given as head and tail. -/
def seriesMin (x : ℚ) : List ℚ → ℚ
  | [] => x
  | y :: ys => min x (seriesMin y ys)

/-- `Series.idxmax` composed with `df.loc[...]`: the first row (in sequence
order) whose `f`-value attains the maximum — pandas' `idxmax` returns the
first index of the maximum, so ties are broken toward the earlier row. -/
def argmaxFirst (f : Row → ℚ) (r : Row) : List Row → Row
  | [] => r
  | r2 :: rs =>
    let b := argmaxFirst f r2 rs
    if f b ≤ f r then r else b

/-- The frame mutation `df['Floating_Loss'] = df['Balance'] - df['Equity']`:
every row gains the derived column, all other columns unchanged. -/
def addFloatingLoss (rows : List Row) : List Row :=
  rows.map fun s => { s with floatingLoss := some (s.balance - s.equity) }

/-- The statistics dictionary returned by
`calculate_max_floating_negative_balance`. -/
structure DailyStatistics where
  max_floating_negative_balance : ℚ
  max_floating_timestamp : DateTime
  min_equity : ℚ
  max_balance : ℚ
  daily_gain : ℚ
  initial_balance : ℚ
  final_balance : ℚ
  data_points : Nat
deriving DecidableEq, Repr

/-- The statistics of a nonempty frame `r :: rs`, field by field as computed in
`calculate_max_floating_negative_balance` (lines 43–74 of
`dailyEquityAnalyzer.py`): the maximum of `Floating_Loss` times `-1`, the
timestamp at its first attainment (`idxmax`), the equity minimum, the balance
maximum, `iloc[0]`/`iloc[-1]` positional initial and final balances, their
difference, and `len(df)`. -/
def calcStats (r : Row) (rs : List Row) : DailyStatistics :=
  let m := seriesMax (floatingLossOf r) (rs.map floatingLossOf)
  { max_floating_negative_balance := m * (-1)
    max_floating_timestamp := (argmaxFirst floatingLossOf r rs).timestamp
    min_equity := seriesMin r.equity (rs.map Row.equity)
    max_balance := seriesMax r.balance (rs.map Row.balance)
    daily_gain := ((r :: rs).getLast (List.cons_ne_nil r rs)).balance - r.balance
    initial_balance := r.balance
    final_balance := ((r :: rs).getLast (List.cons_ne_nil r rs)).balance
    data_points := rs.length + 1 }

/-- `calculate_max_floating_negative_balance`: first the in-place mutation
adding the `Floating_Loss` column (returned as the first component, since the
caller's frame is updated), then the statistics dictionary. On an empty frame
the mutation still happens but `idxmax` raises
`ValueError: attempt to get argmax of an empty sequence`; the raised exception
is modelled as `none`. -/
def calculate_max_floating_negative_balance (rows : List Row) :
    List Row × Option DailyStatistics :=
  (addFloatingLoss rows,
    match rows with
    | [] => none
    | r :: rs => some (calcStats r rs))

/-- A candidate input file of the batch: its name and its lines. -/
structure CsvFile where
  name : String
  lines : List String
deriving DecidableEq, Repr

/-- The float value of a cell of a numeric (float-dtype) column:
`none` is `NaN`. -/
def cellVal : Cell → Option ℚ
  | .num q => some q
  | _ => none

/-- Whether a cell is a kept raw string, i.e. sits in an object column. -/
def isStrCell : Cell → Bool
  | .str _ => true
  | _ => false

/-- Whether `df['Balance'] - df['Equity']` raises `TypeError`: either column
is object dtype, i.e. contains a kept string. -/
def typeErrorSub (raws : List RawRow) : Bool :=
  (raws.any fun r => isStrCell r.equity) || (raws.any fun r => isStrCell r.balance)

/-- The `Floating_Loss` cell of one raw row: `Balance − Equity` with NaN
propagation. -/
def flOf (r : RawRow) : Option ℚ :=
  match cellVal r.balance, cellVal r.equity with
  | some b, some e => some (b - e)
  | _, _ => none

/-- Scan for `idxmax` over the remaining rows, keeping the first row attaining
the running maximum (NaN entries are skipped; a strictly greater value
replaces the best, so ties keep the earlier row). -/
def nargmaxAux (bestR : RawRow) (bestV : ℚ) : List RawRow → RawRow × ℚ
  | [] => (bestR, bestV)
  | r :: rs =>
    match flOf r with
    | some v => if bestV < v then nargmaxAux r v rs else nargmaxAux bestR bestV rs
    | none => nargmaxAux bestR bestV rs

/-- `Series.idxmax` on the `Floating_Loss` column together with the maximum:
`none` — the `ValueError` raise — exactly when the frame is empty or the
column is all-NaN. -/
def nargmaxRaw : List RawRow → Option (RawRow × ℚ)
  | [] => none
  | r :: rs =>
    match flOf r with
    | some v => some (nargmaxAux r v rs)
    | none => nargmaxRaw rs

/-- `Series.min` with `skipna`: the minimum of the present values, `NaN` when
none are present. -/
def nmin : List (Option ℚ) → Option ℚ
  | [] => none
  | none :: t => nmin t
  | some x :: t =>
    match nmin t with
    | none => some x
    | some y => some (min x y)

/-- `Series.max` with `skipna`: the maximum of the present values, `NaN` when
none are present. -/
def nmax : List (Option ℚ) → Option ℚ
  | [] => none
  | none :: t => nmax t
  | some x :: t =>
    match nmax t with
    | none => some x
    | some y => some (max x y)

/-- NaN-propagating subtraction of two float cells. -/
def subO : Option ℚ → Option ℚ → Option ℚ
  | some a, some b => some (a - b)
  | _, _ => none

/-- The statistics dictionary of `calculate_max_floating_negative_balance` as
it comes out for a loaded frame whose `Equity`/`Balance` columns are float
dtype: each float field may be `NaN` (`none`), the timestamp may be `NaT`. -/
structure NStats where
  max_floating_negative_balance : Option ℚ
  max_floating_timestamp : Option DateTime
  min_equity : Option ℚ
  max_balance : Option ℚ
  daily_gain : Option ℚ
  initial_balance : Option ℚ
  final_balance : Option ℚ
  data_points : Nat
deriving DecidableEq, Repr

/-- `calculate_max_floating_negative_balance` applied to a loaded frame with
float-dtype `Equity`/`Balance` columns (the duck-typed Python function on the
raw frame; on clean frames of typed samples it is
`calculate_max_floating_negative_balance` on `Row`s): the maximum floating
loss with NaN skipped, times −1; the timestamp at the first `idxmax` row;
skipna extremes; positional `iloc[0]`/`iloc[-1]` balances and their
difference. `Except.error ()` is the `ValueError` that `idxmax` raises on an
empty frame or an all-NaN `Floating_Loss` column. -/
def calcRaw (raws : List RawRow) : Except Unit NStats :=
  match nargmaxRaw raws with
  | none => .error ()
  | some (a, m) =>
    .ok { max_floating_negative_balance := some (m * (-1))
          max_floating_timestamp := a.timestamp
          min_equity := nmin (raws.map fun r => cellVal r.equity)
          max_balance := nmax (raws.map fun r => cellVal r.balance)
          daily_gain := subO ((raws.getLast? ).bind fun r => cellVal r.balance)
            ((raws.head? ).bind fun r => cellVal r.balance)
          initial_balance := (raws.head? ).bind fun r => cellVal r.balance
          final_balance := (raws.getLast? ).bind fun r => cellVal r.balance
          data_points := raws.length }

/-- One entry of the `daily_results` list: the statistics dictionary tagged
with the extracted date and the source filename. -/
structure DailyResult where
  date : Date
  filename : String
  stats : NStats
deriving DecidableEq, Repr

/-- First match of the regex `\d{4}-\d{2}-\d{2}` in a character list
(`re.search` scans for the earliest starting position), returned as the
year/month/day digit groups. -/
def findDateMatch : List Char → Option (Nat × Nat × Nat)
  | a :: b :: c :: d :: '-' :: e :: f :: '-' :: g :: h :: rest =>
    if a.isDigit ∧ b.isDigit ∧ c.isDigit ∧ d.isDigit ∧ e.isDigit ∧ f.isDigit ∧
        g.isDigit ∧ h.isDigit then
      some (digitVal a * 1000 + digitVal b * 100 + digitVal c * 10 + digitVal d,
        digitVal e * 10 + digitVal f, digitVal g * 10 + digitVal h)
    else findDateMatch (b :: c :: d :: '-' :: e :: f :: '-' :: g :: h :: rest)
  | _ :: rest => findDateMatch rest
  | [] => none

/-- `extract_date_from_filename`: search the name for a `YYYY-MM-DD` substring;
no match returns `None` (`.ok none`). A match is handed to
`datetime.strptime(..., '%Y-%m-%d')` with no `try`, so a date-shaped substring
that is not a valid calendar date raises `ValueError`, modelled as
`.error ()`. -/
def extract_date_from_filename (filename : String) : Except Unit (Option Date) :=
  match findDateMatch filename.toList with
  | none => .ok none
  | some (y, m, d) =>
    if 1 ≤ y ∧ 1 ≤ m ∧ m ≤ 12 ∧ 1 ≤ d ∧ d ≤ daysInMonth y m then
      .ok (some ⟨y, m, d⟩)
    else .error ()

/-- The diagnostic `print(f"Could not extract date from filename: {filename}")`. -/
def noDateMsg (filename : String) : String :=
  "Could not extract date from filename: " ++ filename

/-- The diagnostic `print(f"Skipping {filename} - no valid data")`. -/
def skipMsg (filename : String) : String :=
  "Skipping " ++ filename ++ " - no valid data"

/-- The body of the `for csv_file in sorted(csv_files)` loop of
`process_all_csv_files`, folded over the (already sorted) file list with the
accumulated `daily_results` and the diagnostics printed by the loop itself.
A file whose name yields no date, or whose load fails (`None`) or yields an
empty frame, is skipped with one diagnostic. Three exceptions escape the
loop's body, which has no `try`, and abort the whole batch (`.error ()`):
the `ValueError` of `extract_date_from_filename` on a date-shaped invalid
substring, the `TypeError` of `df['Balance'] - df['Equity']` on an object
column, and the `ValueError` of `idxmax` on an all-NaN floating-loss
column. -/
def processFold (acc : List DailyResult × List String) :
    List CsvFile → Except Unit (List DailyResult × List String)
  | [] => .ok acc
  | f :: fs =>
    match extract_date_from_filename f.name with
    | .error _ => .error ()
    | .ok none => processFold (acc.1, acc.2 ++ [noDateMsg f.name]) fs
    | .ok (some d) =>
      match load_csv_data f.name f.lines with
      | .error _ => processFold (acc.1, acc.2 ++ [skipMsg f.name]) fs
      | .ok [] => processFold (acc.1, acc.2 ++ [skipMsg f.name]) fs
      | .ok (r :: rs) =>
        if typeErrorSub (r :: rs) then .error ()
        else
          match calcRaw (r :: rs) with
          | .error _ => .error ()
          | .ok st => processFold (acc.1 ++ [⟨d, f.name, st⟩], acc.2) fs

/-- Timestamp `t0` of the round-trip test sequence. -/
def t0 : DateTime := ⟨2024, 7, 1, 10, 0, 0⟩

/-- Timestamp `t1` of the round-trip test sequence. -/
def t1 : DateTime := ⟨2024, 7, 1, 10, 5, 0⟩

/-- Timestamp `t2` of the round-trip test sequence. -/
def t2 : DateTime := ⟨2024, 7, 1, 10, 10, 0⟩

/-- Round-trip sample `(t0, equity=1000, balance=1000, drawdown=0)`. -/
def sample0 : Row := ⟨t0, 1000, 1000, 0, none⟩

/-- Round-trip sample `(t1, equity=950, balance=1000, drawdown=0)`. -/
def sample1 : Row := ⟨t1, 950, 1000, 0, none⟩

/-- Round-trip sample `(t2, equity=1000, balance=1050, drawdown=0)`. -/
def sample2 : Row := ⟨t2, 1000, 1050, 0, none⟩

/-- `seriesMax` is an upper bound of the head and of every tail element. -/
theorem le_seriesMax (x : ℚ) (ys : List ℚ) :
    x ≤ seriesMax x ys ∧ ∀ y ∈ ys, y ≤ seriesMax x ys := by
  induction ys generalizing x with
  | nil => exact ⟨le_refl x, by simp⟩
  | cons y ys ih =>
    simp only [seriesMax]
    refine ⟨le_max_left _ _, ?_⟩
    intro z hz
    rcases List.mem_cons.mp hz with rfl | hz2
    · exact le_trans (ih z).1 (le_max_right _ _)
    · exact le_trans ((ih y).2 z hz2) (le_max_right _ _)

/-- `seriesMax` is attained: it is the head or one of the tail elements. -/
theorem seriesMax_mem (x : ℚ) (ys : List ℚ) :
    seriesMax x ys = x ∨ seriesMax x ys ∈ ys := by
  induction ys generalizing x with
  | nil => exact Or.inl rfl
  | cons y ys ih =>
    simp only [seriesMax]
    rcases max_choice x (seriesMax y ys) with h | h
    · exact Or.inl h
    · rcases ih y with h2 | h2
      · rw [h, h2]; exact Or.inr (List.mem_cons_self _ _)
      · rw [h]; exact Or.inr (List.mem_cons_of_mem _ h2)

/-- The first-argmax row attains the series maximum of the column. -/
theorem argmaxFirst_loss (r : Row) (rs : List Row) :
    floatingLossOf (argmaxFirst floatingLossOf r rs) =
      seriesMax (floatingLossOf r) (rs.map floatingLossOf) := by
  induction rs generalizing r with
  | nil => rfl
  | cons r2 rs ih =>
    simp only [argmaxFirst, List.map_cons, seriesMax, ← ih r2]
    by_cases h : floatingLossOf (argmaxFirst floatingLossOf r2 rs) ≤ floatingLossOf r
    · rw [if_pos h, max_eq_left h]
    · rw [if_neg h, max_eq_right (le_of_not_le h)]

/-- The first-argmax row is the first row (in sequence order) whose floating
loss equals the floating loss of the first-argmax row. -/
theorem argmaxFirst_find (r : Row) (rs : List Row) :
    (r :: rs).find? (fun s => decide (s.balance - s.equity =
        floatingLossOf (argmaxFirst floatingLossOf r rs))) =
      some (argmaxFirst floatingLossOf r rs) := by
  induction rs generalizing r with
  | nil => simp [List.find?, argmaxFirst, floatingLossOf]
  | cons r2 rs ih =>
    by_cases h : floatingLossOf (argmaxFirst floatingLossOf r2 rs) ≤ floatingLossOf r
    · simp only [argmaxFirst, if_pos h]
      rw [List.find?_cons]
      simp [floatingLossOf]
    · simp only [argmaxFirst, if_neg h]
      rw [List.find?_cons]
      have hne : ¬ (r.balance - r.equity =
          floatingLossOf (argmaxFirst floatingLossOf r2 rs)) := by
        intro hEq
        exact h (le_of_eq hEq.symm)
      rw [decide_eq_false hne]
      exact ih r2

/-- C1: For every non-empty sample sequence, the Daily Metrics Calculator
reports `max_floating_loss` equal to the negation of the maximum over all
samples of `balance[i] - equity[i]` (the reported series maximum is an upper
bound of, and attained by, the per-sample floating losses), reports
`max_floating_timestamp` as the timestamp of the first sample in sequence
order attaining that maximum (stable argmax under ties, as `List.find?`),
and the reported value is ≤ 0 whenever `balance[i] ≥ equity[i]` holds for
some `i`. -/
theorem calc_max_floating_loss_spec (r : Row) (rs : List Row) :
    (calculate_max_floating_negative_balance (r :: rs)).2 = some (calcStats r rs) ∧
    (∀ s ∈ r :: rs,
      s.balance - s.equity ≤ seriesMax (floatingLossOf r) (rs.map floatingLossOf)) ∧
    (∃ s ∈ r :: rs,
      s.balance - s.equity = seriesMax (floatingLossOf r) (rs.map floatingLossOf)) ∧
    (calcStats r rs).max_floating_negative_balance =
      -(seriesMax (floatingLossOf r) (rs.map floatingLossOf)) ∧
    (∃ a, (r :: rs).find? (fun s => decide (s.balance - s.equity =
        seriesMax (floatingLossOf r) (rs.map floatingLossOf))) = some a ∧
      (calcStats r rs).max_floating_timestamp = a.timestamp) ∧
    ((∃ s ∈ r :: rs, s.equity ≤ s.balance) →
      (calcStats r rs).max_floating_negative_balance ≤ 0) := by
  have hub : ∀ s ∈ r :: rs,
      s.balance - s.equity ≤ seriesMax (floatingLossOf r) (rs.map floatingLossOf) := by
    intro s hs
    rcases List.mem_cons.mp hs with rfl | hs2
    · exact (le_seriesMax (floatingLossOf s) (rs.map floatingLossOf)).1
    · exact (le_seriesMax (floatingLossOf r) (rs.map floatingLossOf)).2
        (floatingLossOf s) (List.mem_map_of_mem _ hs2)
  refine ⟨rfl, hub, ?_, ?_, ?_, ?_⟩
  · rcases seriesMax_mem (floatingLossOf r) (rs.map floatingLossOf) with h | h
    · exact ⟨r, List.mem_cons_self _ _, h.symm⟩
    · rcases List.mem_map.mp h with ⟨s, hs, hfs⟩
      exact ⟨s, List.mem_cons_of_mem _ hs, hfs⟩
  · exact mul_neg_one _
  · refine ⟨argmaxFirst floatingLossOf r rs, ?_, rfl⟩
    have h := argmaxFirst_find r rs
    rw [argmaxFirst_loss r rs] at h
    exact h
  · rintro ⟨s, hs, hle⟩
    have h0 : (0 : ℚ) ≤ s.balance - s.equity := sub_nonneg.mpr hle
    have h1 := hub s hs
    show seriesMax (floatingLossOf r) (rs.map floatingLossOf) * (-1) ≤ 0
    rw [mul_neg_one]
    exact neg_nonpos.mpr (le_trans h0 h1)

/-- C1 witness: on the concrete two-sample frame `[sample0, sample1]` (where
`sample0` has `balance = equity`), the reported maximum floating negative
balance is ≤ 0. -/
theorem calc_max_floating_loss_spec_witness :
    (calcStats sample0 [sample1]).max_floating_negative_balance ≤ 0 :=
  (calc_max_floating_loss_spec sample0 [sample1]).2.2.2.2.2
    ⟨sample0, List.mem_cons_self _ _, le_refl _⟩

/-- C2: Feeding the Calculator the three-sample sequence
`[(t0, 1000, 1000, 0), (t1, 950, 1000, 0), (t2, 1000, 1050, 0)]` yields
exactly `max_floating_loss = -50` with its timestamp at `t1` (the first of the
two tied maxima), `min_equity = 950`, `max_balance = 1050`,
`initial_balance = 1000`, `final_balance = 1050`, `daily_gain = 50`, and
`sample_count = 3`. -/
theorem calc_round_trip_example :
    (calculate_max_floating_negative_balance [sample0, sample1, sample2]).2 =
      some ⟨-50, t1, 950, 1050, 50, 1000, 1050, 3⟩ := by
  show some (calcStats sample0 [sample1, sample2]) = _
  norm_num [calcStats, seriesMax, seriesMin, argmaxFirst, floatingLossOf,
    sample0, sample1, sample2, max_def, min_def, List.getLast]

/-- C6: For every non-empty sample sequence, the Calculator sets
`initial_balance` to the balance of the first element and `final_balance` to
the balance of the last element of the already-ordered sequence (positional
lookup), and `daily_gain` equals `final_balance − initial_balance`. -/
theorem calc_positional_initial_final (r : Row) (rs : List Row) :
    (calculate_max_floating_negative_balance (r :: rs)).2 = some (calcStats r rs) ∧
    (calcStats r rs).initial_balance = ((r :: rs).head (List.cons_ne_nil r rs)).balance ∧
    (calcStats r rs).final_balance = ((r :: rs).getLast (List.cons_ne_nil r rs)).balance ∧
    (calcStats r rs).daily_gain =
      (calcStats r rs).final_balance - (calcStats r rs).initial_balance :=
  ⟨rfl, rfl, rfl, rfl⟩

/-- C7 counterexample: on the single-sample sequence with `equity = 900` and
`balance = 1000`, the Calculator's `min_equity` (900) differs from its
`initial_balance` (1000), refuting the claimed chain
`min_equity == final_balance == initial_balance` for length-1 sequences. -/
theorem calc_single_sample_cex :
    (calculate_max_floating_negative_balance
        [⟨⟨2024, 7, 1, 10, 0, 0⟩, 900, 1000, 0, none⟩]).2.map
        DailyStatistics.min_equity ≠
      (calculate_max_floating_negative_balance
        [⟨⟨2024, 7, 1, 10, 0, 0⟩, 900, 1000, 0, none⟩]).2.map
        DailyStatistics.initial_balance := by
  simp [calculate_max_floating_negative_balance, calcStats, seriesMin]

/-- C7 (amended): For every sample sequence of length exactly 1, the Calculator
succeeds (no failure), `daily_gain = 0`, and every statistic equals the single
sample's corresponding value: `min_equity` is the sample's equity,
`max_balance`, `initial_balance` and `final_balance` are the sample's balance,
the floating-loss peak is the sample's `-(balance − equity)` at the sample's
timestamp, and the count is 1. (`min_equity` equals `initial_balance` only
when the sample's equity equals its balance.) -/
theorem calc_single_sample (s : Row) :
    (calculate_max_floating_negative_balance [s]).2 = some (calcStats s []) ∧
    (calcStats s []).daily_gain = 0 ∧
    (calcStats s []).min_equity = s.equity ∧
    (calcStats s []).max_balance = s.balance ∧
    (calcStats s []).initial_balance = s.balance ∧
    (calcStats s []).final_balance = s.balance ∧
    (calcStats s []).max_floating_negative_balance = -(s.balance - s.equity) ∧
    (calcStats s []).max_floating_timestamp = s.timestamp ∧
    (calcStats s []).data_points = 1 := by
  refine ⟨rfl, ?_, rfl, rfl, rfl, rfl, ?_, rfl, rfl⟩
  · exact sub_self s.balance
  · exact mul_neg_one _

/-- C9: When the Calculator is invoked with an empty sample sequence, it fails
(the `idxmax` call raises, modelled as `none`) rather than returning a
degenerate `DailyStatistics` record. -/
theorem calc_empty_input_fails :
    (calculate_max_floating_negative_balance []).2 = none := rfl

/-- C10: For every input sample collection, the Calculator's returned frame is
the input with a derived `Floating_Loss` column equal to `balance − equity`
added to every row, while every original column (timestamp, equity, balance,
drawdown) of every row is unchanged, row for row in order. -/
theorem calc_adds_floating_loss_column (rows : List Row) :
    (calculate_max_floating_negative_balance rows).1 = addFloatingLoss rows ∧
    List.Forall₂ (fun s u => u.timestamp = s.timestamp ∧ u.equity = s.equity ∧
        u.balance = s.balance ∧ u.drawdown = s.drawdown ∧
        u.floatingLoss = some (s.balance - s.equity))
      rows (calculate_max_floating_negative_balance rows).1 := by
  constructor
  · rfl
  · show List.Forall₂ _ rows (addFloatingLoss rows)
    induction rows with
    | nil => exact List.Forall₂.nil
    | cons s ss ih => exact List.Forall₂.cons ⟨rfl, rfl, rfl, rfl, rfl⟩ ih

/-- C8 counterexample: loading the zero-row file raises `EmptyDataError`,
which `load_csv_data` catches into the same `None` error sentinel — with the
"Error loading" diagnostic — as a parse failure, refuting the claim that a
zero-row file yields a soft "no data" result distinct from a thrown parse
error. -/
theorem empty_file_error_sentinel_cex :
    load_csv_data "EquityLogClean_2024-07-01.csv" [] =
      .error (loadErrMsg "EquityLogClean_2024-07-01.csv") := rfl

/-- C8 (amended): Loading a file with 0 data rows raises `EmptyDataError`;
in `load_csv_data` it is caught and returned as the same `None` sentinel
(with an "Error loading" diagnostic) as a parse failure — not a distinct soft
"no data" result — while in `load_data` it propagates uncaught. The batch
caller skips such a file with one diagnostic and continues processing the
remaining files unchanged. -/
theorem empty_file_error_skip (f : CsvFile) (hf : f.lines = []) :
    load_csv_data f.name f.lines = .error (loadErrMsg f.name) ∧
    load_data f.lines = .error () ∧
    ∀ d acc fs, extract_date_from_filename f.name = .ok (some d) →
      processFold acc (f :: fs) = processFold (acc.1, acc.2 ++ [skipMsg f.name]) fs := by
  have h0 : pdParseFrame f.lines = .error () := by rw [hf]; rfl
  have h1 : load_csv_data f.name f.lines = .error (loadErrMsg f.name) := by
    simp [load_csv_data, h0]
  refine ⟨h1, h0, ?_⟩
  intro d acc fs hx
  simp only [processFold, hx, h1]

/-- C8 witness: the concrete empty file `EquityLogClean_2024-07-01.csv` loads
as the caught error sentinel and is skipped by the batch step with its
diagnostic, processing continuing with the remaining files. -/
theorem empty_file_error_skip_witness :
    load_csv_data "EquityLogClean_2024-07-01.csv" [] =
      .error (loadErrMsg "EquityLogClean_2024-07-01.csv") ∧
    load_data ([] : List String) = .error () ∧
    processFold ([], []) [⟨"EquityLogClean_2024-07-01.csv", []⟩] =
      processFold ([], [skipMsg "EquityLogClean_2024-07-01.csv"]) [] := by
  have h := empty_file_error_skip ⟨"EquityLogClean_2024-07-01.csv", []⟩ rfl
  exact ⟨h.1, h.2.1, h.2.2 ⟨2024, 7, 1⟩ ([], []) [] (by rfl)⟩

